import Mathlib

/-!
Shallow embedding of the Campus Dabba order-placement and payment flow.

Source files embedded here:
* the payment-verification API route (`POST` handler, razorpay verify endpoint):
  request validation, HMAC-SHA256 signature comparison, order update and
  `cook_payments` insertion;
* the checkout page (`handlePayment`, `getCartTotal`, `hasCompleteProfile`):
  profile and cart validation, order plus order-items creation with the
  compensating delete, branching on the payment method, and the razorpay
  widget callback handling;
* the razorpay helper (`initiatePayment`) and the price utilities
  (`toPaise`).

Money amounts are modelled as exact rationals, timestamps as naturals, and
the database tables (`orders`, `order_items`, `cook_payments`) as lists of
rows.  Fallible database statements are modelled by explicit failure flags
in the environment, and the HMAC-SHA256 primitive (an external crypto
library) as an abstract function parameter of the environment.
-/

namespace CampusDabba

/-- Delivery address blob stored on the user profile (jsonb column). -/
structure Address where
  street : String
  city : String
  state : String
  pincode : String
deriving Repr, DecidableEq

/-- The combined user data the checkout page assembles from the `users`
table and the auth provider. -/
structure UserData where
  id : String
  email : String
  first_name : String
  last_name : String
  phone : String
  address : Address
deriving Repr, DecidableEq

/-- A client-held cart line (`CartItem` in the checkout page). -/
structure CartItem where
  id : String
  item_name : String
  quantity : Nat
  price : ℚ
  cook_id : String
deriving Repr, DecidableEq

/-- A row of the `orders` table, restricted to the columns the embedded
flow reads or writes. -/
structure OrderRow where
  id : String
  user_id : String
  cook_id : String
  status : String
  total : ℚ
  payment_method : String
  payment_status : String
  payment_id : Option String
  delivery_address : Address
  created_at : Nat
  updated_at : Option Nat
deriving Repr, DecidableEq

/-- A row of the `order_items` table. -/
structure OrderItemRow where
  order_id : String
  menu_id : String
  quantity : Nat
  price_at_time : ℚ
deriving Repr, DecidableEq

/-- A row of the `cook_payments` table (a Payable owed to a cook). -/
structure CookPaymentRow where
  cook_id : String
  order_id : String
  amount : ℚ
  status : String
  created_at : Option Nat
deriving Repr, DecidableEq

/-- The slice of the database the flow touches. -/
structure DB where
  orders : List OrderRow
  order_items : List OrderItemRow
  cook_payments : List CookPaymentRow
deriving Repr, DecidableEq

/-- JavaScript truthiness of an optional string field of a request body:
`undefined` and the empty string are falsy. -/
def truthy : Option String → Bool
  | none => false
  | some s => !(s == "")

/-- Truthiness of a field that is present. -/
theorem truthy_some (s : String) : truthy (some s) = !(s == "") := rfl

/-- `getCartTotal` from the checkout page: fold of `price * quantity`
over the cart, starting from 0. -/
def getCartTotal (cart : List CartItem) : ℚ :=
  cart.foldl (fun total item => total + item.price * (item.quantity : ℚ)) 0

/-- One character position of the UUID regex
`[0-9a-f]` with the case-insensitive flag, on the character code. -/
def isUuidHexDigit (n : Nat) : Bool :=
  (decide (48 ≤ n) && decide (n ≤ 57)) ||
  (decide (97 ≤ n) && decide (n ≤ 102)) ||
  (decide (65 ≤ n) && decide (n ≤ 70))

/-- The menu-id validation regex of `handlePayment`:
8-4-4-4-12 hexadecimal groups separated by hyphens (code 45),
case-insensitive, anchored at both ends. -/
def isValidUUID (s : String) : Bool :=
  let ns := s.toList.map Char.toNat
  ns.length == 36 &&
  (List.range 36).all (fun i =>
    if i == 8 || i == 13 || i == 18 || i == 23 then ns.getD i 0 == 45
    else isUuidHexDigit (ns.getD i 0))

/-- `hasCompleteProfile` from the checkout page: the UI guard that
disables the checkout button; requires name, email, phone and every
address component to be non-empty. -/
def hasCompleteProfile : Option UserData → Bool
  | none => false
  | some u =>
    !(u.first_name == "") && !(u.last_name == "") && !(u.email == "") &&
    !(u.phone == "") && !(u.address.street == "") && !(u.address.city == "") &&
    !(u.address.state == "") && !(u.address.pincode == "")

/-- `toPaise` from the price utilities: rupees to the minor unit of the gateway
unit, `Math.round(rupees * 100)` (`Math.round` rounds half up, which is
floor of the value plus one half). -/
def toPaise (rupees : ℚ) : ℤ :=
  ⌊rupees * 100 + 1/2⌋

/-- Rounding to two decimal places, used to state the specified
`round(subtotal * 1.18, 2)` property. -/
def round2 (q : ℚ) : ℚ :=
  ((⌊q * 100 + 1/2⌋ : ℤ) : ℚ) / 100

/-! ## The payment-verification API route -/

/-- Parsed JSON body of a request to the verify endpoint.  `none` models
an absent field. -/
structure VerifyRequest where
  razorpay_payment_id : Option String
  razorpay_order_id : Option String
  razorpay_signature : Option String
  order_db_id : Option String
deriving Repr, DecidableEq

/-- Environment of one request to the verify endpoint: the server-held
secret, the HMAC-SHA256 primitive (key and message to hex digest,
abstract), the current time, and failure flags for each fallible database
statement the handler runs. -/
structure VerifyEnv where
  secret : String
  hmacSHA256 : String → String → String
  now : Nat
  orderUpdateFails : Bool
  orderFetchFails : Bool
  cookPaymentInsertFails : Bool

/-- Response of the verify endpoint: an error status with a message, or
the HTTP 200 body carrying `success: true`, the payment id and the
gateway order (session) id. -/
inductive ApiResponse where
  | err (status : Nat) (message : String)
  | ok (payment_id : String) (session_id : String)
deriving Repr, DecidableEq

/-- The order update the verify endpoint performs on a valid signature:
set `status` to paid, record the payment id and `updated_at`.  Note the
handler does not touch `payment_status`. -/
def verifyUpdateOrders (db : DB) (oid pid : String) (now : Nat) : DB :=
  { db with orders := db.orders.map (fun o =>
      if o.id == oid then
        { o with status := "paid", payment_id := some pid, updated_at := some now }
      else o) }

/-- The `POST` handler of the verify endpoint.  Returns the response and
the database after the request.  Mirrors the source: missing parameters
give 400; a digest mismatch gives 400; otherwise, when an `order_db_id`
is supplied, the order is updated (failure logged and ignored), the order
row is re-fetched with `.single()` (exactly one row, else an error), and
on a successful fetch a `cook_payments` row is inserted (failure logged
and ignored); the 200 response is returned regardless of those database
errors. -/
def verifyPaymentPOST (env : VerifyEnv) (req : VerifyRequest) (db : DB) :
    ApiResponse × DB :=
  if !(truthy req.razorpay_payment_id) || !(truthy req.razorpay_order_id) ||
     !(truthy req.razorpay_signature) then
    (ApiResponse.err 400 "Payment verification failed: Missing parameters", db)
  else
    let pid := req.razorpay_payment_id.getD ""
    let oid := req.razorpay_order_id.getD ""
    let sig := req.razorpay_signature.getD ""
    let digest := env.hmacSHA256 env.secret (oid ++ "|" ++ pid)
    if !(digest == sig) then
      (ApiResponse.err 400 "Payment verification failed: Invalid signature", db)
    else
      if truthy req.order_db_id then
        let dbid := req.order_db_id.getD ""
        let db1 := if env.orderUpdateFails then db
                   else verifyUpdateOrders db dbid pid env.now
        let fetched : Option OrderRow :=
          if env.orderFetchFails then none
          else match db1.orders.filter (fun o => o.id == dbid) with
               | [o] => some o
               | _ => none
        let db2 :=
          match fetched with
          | some o =>
            if env.cookPaymentInsertFails then db1
            else { db1 with cook_payments := db1.cook_payments ++
                     [{ cook_id := o.cook_id, order_id := dbid, amount := o.total,
                        status := "pending", created_at := none }] }
          | none => db1
        (ApiResponse.ok pid oid, db2)
      else
        (ApiResponse.ok pid oid, db)

/-! ## The checkout page -/

/-- Outcome of `initiatePayment` (the razorpay helper): the `handler` of the widget resolves the promise with the raw gateway response carrying a
payment id, or the promise is rejected (dismissal or widget error).  The
helper performs no server-side order creation and no signature
verification before resolving. -/
inductive PaymentOutcome where
  | resolved (razorpay_payment_id : String)
  | rejected (msg : String)
deriving Repr, DecidableEq

/-- Environment of one run of `handlePayment`: component state, the
session user, the database-generated id for the new order, the current
time, failure flags for each fallible database statement, and the
razorpay widget outcome used on the online branch. -/
structure CheckoutEnv where
  isLoggedIn : Bool
  userData : Option UserData
  session_user : Option String
  paymentMethod : String
  razorpayLoaded : Bool
  now : Nat
  newOrderId : String
  orderInsertFails : Bool
  orderItemsInsertFails : Bool
  orderPaidUpdateFails : Bool
  cookPaymentInsertFails : Bool
  outcome : PaymentOutcome
deriving Repr, DecidableEq

/-- How one run of `handlePayment` ends: the early not-logged-in toast,
the catch branch with its destructive toast message, the success toast
plus redirect to the order page, or falling off the end of the handler
with no toast, redirect or error (online method with the SDK not
loaded). -/
inductive CheckoutResult where
  | notLoggedIn
  | failed (msg : String)
  | completed (order_id : String)
  | silentReturn (order_id : String)
deriving Repr, DecidableEq

/-- Observable result of a run of `handlePayment`: how it ended, the
database afterwards, and whether `clearCart()` ran. -/
structure CheckoutOutput where
  result : CheckoutResult
  db : DB
  cartCleared : Bool
deriving Repr, DecidableEq

/-- The `orderData` object `handlePayment` inserts into `orders`:
status and payment_status pending, total `getCartTotal() * 1.18`,
the snapshot of the profile address, no payment id yet. -/
def orderDataOf (env : CheckoutEnv) (uid : String) (u : UserData)
    (cart : List CartItem) (c0 : CartItem) : OrderRow :=
  { id := env.newOrderId
    user_id := uid
    cook_id := c0.cook_id
    status := "pending"
    total := getCartTotal cart * (1.18 : ℚ)
    payment_method := env.paymentMethod
    payment_status := "pending"
    payment_id := none
    delivery_address := u.address
    created_at := env.now
    updated_at := none }

/-- The order-items batch `handlePayment` builds for the new order:
one row per cart line, with the trimmed menu id and the price snapshot. -/
def orderItemsOf (cart : List CartItem) (oid : String) : List OrderItemRow :=
  cart.map (fun item =>
    { order_id := oid
      menu_id := item.id.trim
      quantity := item.quantity
      price_at_time := item.price })

/-- Database effect of the order insert statement. -/
def insertOrder (db : DB) (o : OrderRow) : DB :=
  { db with orders := db.orders ++ [o] }

/-- Database effect of the order-items batch insert statement. -/
def insertOrderItems (db : DB) (items : List OrderItemRow) : DB :=
  { db with order_items := db.order_items ++ items }

/-- The compensating delete: remove every order row with the given id. -/
def deleteOrder (db : DB) (oid : String) : DB :=
  { db with orders := db.orders.filter (fun o => !(o.id == oid)) }

/-- The update `handlePayment` runs after a resolved widget callback:
status paid, payment_status paid, payment id, updated_at. -/
def markOrderPaid (db : DB) (oid pid : String) (now : Nat) : DB :=
  { db with orders := db.orders.map (fun o =>
      if o.id == oid then
        { o with
          status := "paid"
          payment_status := "paid"
          payment_id := some pid
          updated_at := some now }
      else o) }

/-- The update `handlePayment` runs after a rejected widget callback:
status payment_failed, payment_status failed, updated_at. -/
def markOrderFailed (db : DB) (oid : String) (now : Nat) : DB :=
  { db with orders := db.orders.map (fun o =>
      if o.id == oid then
        { o with
          status := "payment_failed"
          payment_status := "failed"
          updated_at := some now }
      else o) }

/-- Database effect of the `cook_payments` insert statement. -/
def insertCookPayment (db : DB) (row : CookPaymentRow) : DB :=
  { db with cook_payments := db.cook_payments ++ [row] }

/-- The database after the order insert and the order-items batch insert
of one checkout have both succeeded. -/
def writtenDB (env : CheckoutEnv) (uid : String) (u : UserData)
    (c0 : CartItem) (rest : List CartItem) (db : DB) : DB :=
  insertOrderItems (insertOrder db (orderDataOf env uid u (c0 :: rest) c0))
    (orderItemsOf (c0 :: rest) env.newOrderId)

/-- The paid update after a resolved widget callback, guarded by its
failure flag (the source logs the error and continues). -/
def paidUpdateDB (env : CheckoutEnv) (base : DB) (pid : String) : DB :=
  if env.orderPaidUpdateFails then base
  else markOrderPaid base env.newOrderId pid env.now

/-- The database after the online-success tail of `handlePayment`: the
paid update followed by the `cook_payments` insert, each guarded by its
failure flag (the source logs each error and continues). -/
def onlineSuccessDB (env : CheckoutEnv) (c0 : CartItem) (rest : List CartItem)
    (base : DB) (pid : String) : DB :=
  if env.cookPaymentInsertFails then paidUpdateDB env base pid
  else insertCookPayment (paidUpdateDB env base pid)
    { cook_id := c0.cook_id
      order_id := env.newOrderId
      amount := getCartTotal (c0 :: rest) * (1.18 : ℚ)
      status := "pending"
      created_at := some env.now }

/-- `handlePayment` from the checkout page.  Mirrors the source: the
not-logged-in early return; the session check; the name, address,
empty-cart and menu-id validations (note: `phone` is not checked here);
the order insert; the order-items batch insert with the compensating
delete of the order on failure; the cash branch (clear cart, success);
the online branch guarded by `razorpayLoaded`, which on a resolved widget
callback updates the order to paid (failure ignored), inserts a
`cook_payments` row (failure ignored) and clears the cart, and on a
rejected callback marks the order payment_failed and throws; and the
silent fall-through when the method is online but the SDK is not
loaded. -/
def handlePayment (env : CheckoutEnv) (cart : List CartItem) (db : DB) :
    CheckoutOutput :=
  if !env.isLoggedIn || env.userData.isNone then
    ⟨CheckoutResult.notLoggedIn, db, false⟩
  else
    match env.userData with
    | none => ⟨CheckoutResult.notLoggedIn, db, false⟩
    | some u =>
      match env.session_user with
      | none => ⟨CheckoutResult.failed "Authentication required", db, false⟩
      | some uid =>
        if u.first_name == "" || u.last_name == "" then
          ⟨CheckoutResult.failed
            "Please complete your profile with your name before checkout", db, false⟩
        else if u.address.street == "" || u.address.city == "" ||
                u.address.state == "" || u.address.pincode == "" then
          ⟨CheckoutResult.failed
            "Please add a complete delivery address to your profile", db, false⟩
        else
          match cart with
          | [] => ⟨CheckoutResult.failed "Cart is empty", db, false⟩
          | c0 :: rest =>
            if (c0 :: rest).any (fun item => !(isValidUUID item.id)) then
              ⟨CheckoutResult.failed "Invalid menu items in cart", db, false⟩
            else if env.orderInsertFails then
              ⟨CheckoutResult.failed "Failed to create order", db, false⟩
            else if env.orderItemsInsertFails then
              ⟨CheckoutResult.failed "Failed to add items to order",
               deleteOrder (insertOrder db (orderDataOf env uid u (c0 :: rest) c0))
                 env.newOrderId,
               false⟩
            else
              if env.paymentMethod == "cash" then
                ⟨CheckoutResult.completed env.newOrderId,
                 writtenDB env uid u c0 rest db, true⟩
              else if env.paymentMethod == "online" && env.razorpayLoaded then
                match env.outcome with
                | PaymentOutcome.resolved pid =>
                  ⟨CheckoutResult.completed env.newOrderId,
                   onlineSuccessDB env c0 rest
                     (writtenDB env uid u c0 rest db) pid, true⟩
                | PaymentOutcome.rejected msg =>
                  ⟨CheckoutResult.failed ("Payment failed: " ++ msg),
                   markOrderFailed (writtenDB env uid u c0 rest db)
                     env.newOrderId env.now, false⟩
              else
                ⟨CheckoutResult.silentReturn env.newOrderId,
                 writtenDB env uid u c0 rest db, false⟩

/-! ## Membership lemmas about the database helpers -/

/-- A row surviving the compensating delete was present before it. -/
theorem mem_deleteOrder (db : DB) (oid : String) (o : OrderRow)
    (ho : o ∈ (deleteOrder db oid).orders) : o ∈ db.orders :=
  (List.mem_filter.mp ho).1

/-- A row of the database after an order insert is an old row or the
inserted row. -/
theorem mem_insertOrder (db : DB) (order : OrderRow) (o : OrderRow)
    (ho : o ∈ (insertOrder db order).orders) : o ∈ db.orders ∨ o = order := by
  simp only [insertOrder] at ho
  rcases List.mem_append.mp ho with h | h
  · exact Or.inl h
  · exact Or.inr (List.mem_singleton.mp h)

/-- A row of the database after the order and items writes is an old row
or the new order row. -/
theorem mem_writtenDB (env : CheckoutEnv) (uid : String) (u : UserData)
    (c0 : CartItem) (rest : List CartItem) (db : DB) (o : OrderRow)
    (ho : o ∈ (writtenDB env uid u c0 rest db).orders) :
    o ∈ db.orders ∨ o = orderDataOf env uid u (c0 :: rest) c0 :=
  mem_insertOrder db (orderDataOf env uid u (c0 :: rest) c0) o ho

/-- The paid update maps each row to a row with the same total, and
leaves rows with a different id untouched. -/
theorem mem_markOrderPaid_total (db : DB) (oid pid : String) (now : Nat)
    (o : OrderRow) (ho : o ∈ (markOrderPaid db oid pid now).orders) :
    ∃ p ∈ db.orders, o.total = p.total ∧ ((p.id == oid) = false → o = p) := by
  simp only [markOrderPaid] at ho
  rcases List.mem_map.mp ho with ⟨p, hp, rfl⟩
  refine ⟨p, hp, ?_, ?_⟩
  · by_cases h : (p.id == oid) = true
    · simp [h]
    · simp [h]
  · intro h
    simp [h]

/-- The failed update maps each row to a row with the same total, and
leaves rows with a different id untouched. -/
theorem mem_markOrderFailed_total (db : DB) (oid : String) (now : Nat)
    (o : OrderRow) (ho : o ∈ (markOrderFailed db oid now).orders) :
    ∃ p ∈ db.orders, o.total = p.total ∧ ((p.id == oid) = false → o = p) := by
  simp only [markOrderFailed] at ho
  rcases List.mem_map.mp ho with ⟨p, hp, rfl⟩
  refine ⟨p, hp, ?_, ?_⟩
  · by_cases h : (p.id == oid) = true
    · simp [h]
    · simp [h]
  · intro h
    simp [h]

/-- A row of the database after the online-success tail comes from a row
of the base database with the same total; rows with a different id are
untouched. -/
theorem mem_onlineSuccessDB (env : CheckoutEnv) (c0 : CartItem)
    (rest : List CartItem) (base : DB) (pid : String) (o : OrderRow)
    (ho : o ∈ (onlineSuccessDB env c0 rest base pid).orders) :
    ∃ p ∈ base.orders, o.total = p.total
      ∧ ((p.id == env.newOrderId) = false → o = p) := by
  have hpu : o ∈ (paidUpdateDB env base pid).orders := by
    unfold onlineSuccessDB at ho
    split at ho
    · exact ho
    · exact ho
  unfold paidUpdateDB at hpu
  split at hpu
  · exact ⟨o, hpu, rfl, fun _ => rfl⟩
  · exact mem_markOrderPaid_total _ _ _ _ _ hpu

/-! ## Concrete fixtures used by witnesses and counterexamples -/

/-- A complete demo delivery address. -/
def demoAddress : Address :=
  { street := "12 MG Road"
    city := "Bengaluru"
    state := "KA"
    pincode := "560001" }

/-- A demo user with a complete profile. -/
def demoUser : UserData :=
  { id := "user-1"
    email := "asha@example.com"
    first_name := "Asha"
    last_name := "Rao"
    phone := "9999999999"
    address := demoAddress }

/-- A demo cart line: quantity 2 at price 100. -/
def demoItem : CartItem :=
  { id := "11111111-2222-3333-4444-555555555555"
    item_name := "Veg Dabba"
    quantity := 2
    price := 100
    cook_id := "cook-1" }

/-- A one-line demo cart with subtotal 200. -/
def demoCart : List CartItem := [demoItem]

/-- The empty database. -/
def emptyDB : DB :=
  { orders := []
    order_items := []
    cook_payments := [] }

/-- A checkout environment for a cash checkout by the demo user, with
every database statement succeeding. -/
def cashEnv : CheckoutEnv :=
  { isLoggedIn := true
    userData := some demoUser
    session_user := some "user-1"
    paymentMethod := "cash"
    razorpayLoaded := true
    now := 1000
    newOrderId := "ord-1"
    orderInsertFails := false
    orderItemsInsertFails := false
    orderPaidUpdateFails := false
    cookPaymentInsertFails := false
    outcome := PaymentOutcome.rejected "unused on the cash branch" }

/-- The same environment with the online method and the razorpay widget
resolving with payment id pay_1. -/
def onlineEnv : CheckoutEnv :=
  { cashEnv with
    paymentMethod := "online"
    outcome := PaymentOutcome.resolved "pay_1" }

/-- The online environment with the razorpay SDK not loaded. -/
def sdkDownEnv : CheckoutEnv :=
  { onlineEnv with razorpayLoaded := false }

/-- The cash environment with the order-items batch insert failing. -/
def itemsFailEnv : CheckoutEnv :=
  { cashEnv with orderItemsInsertFails := true }

/-- A database already holding an unrelated order, to exercise the
compensating delete against pre-existing rows. -/
def preloadedDB : DB :=
  { orders := [{ id := "ord-0"
                 user_id := "user-9"
                 cook_id := "cook-9"
                 status := "pending"
                 total := 59
                 payment_method := "cash"
                 payment_status := "pending"
                 payment_id := none
                 delivery_address := demoAddress
                 created_at := 1
                 updated_at := none }]
    order_items := []
    cook_payments := [] }

/-- The menu id of the demo cart does match the UUID regex. -/
theorem demo_uuid_valid :
    isValidUUID "11111111-2222-3333-4444-555555555555" = true := by decide

/-! ## Claim theorems -/

/-- C5: for every checkout with payment method cash that passes
validation and whose two inserts succeed, `handlePayment` completes with
the new Order row left at status pending and payment_status pending,
the `cook_payments` table untouched (zero Payables created), and the
cart cleared; no payment step runs. -/
theorem C5_cash_checkout_pending_no_payable
    (env : CheckoutEnv) (u : UserData) (uid : String)
    (c0 : CartItem) (rest : List CartItem) (cart : List CartItem) (db : DB)
    (henv1 : env.isLoggedIn = true)
    (henv2 : env.userData = some u)
    (henv3 : env.session_user = some uid)
    (hn1 : (u.first_name == "") = false)
    (hn2 : (u.last_name == "") = false)
    (ha1 : (u.address.street == "") = false)
    (ha2 : (u.address.city == "") = false)
    (ha3 : (u.address.state == "") = false)
    (ha4 : (u.address.pincode == "") = false)
    (hcart : cart = c0 :: rest)
    (huuid : ((c0 :: rest).any fun item => !(isValidUUID item.id)) = false)
    (hpm : env.paymentMethod = "cash")
    (hoi : env.orderInsertFails = false)
    (hii : env.orderItemsInsertFails = false) :
    handlePayment env cart db =
      ⟨CheckoutResult.completed env.newOrderId,
       { db with
         orders := db.orders ++ [orderDataOf env uid u (c0 :: rest) c0]
         order_items := db.order_items ++ (c0 :: rest).map (fun item =>
           { order_id := env.newOrderId
             menu_id := item.id.trim
             quantity := item.quantity
             price_at_time := item.price }) },
       true⟩
    ∧ (orderDataOf env uid u (c0 :: rest) c0).status = "pending"
    ∧ (orderDataOf env uid u (c0 :: rest) c0).payment_status = "pending" := by
  subst hcart
  refine ⟨?_, rfl, rfl⟩
  simp [handlePayment, insertOrder, insertOrderItems, orderItemsOf,
      deleteOrder, markOrderPaid, markOrderFailed, insertCookPayment,
      writtenDB, paidUpdateDB, onlineSuccessDB, orderDataOf, henv1, henv2, henv3, hn1, hn2,
    ha1, ha2, ha3, ha4, huuid, hpm, hoi, hii]

/-- Witness for C5 on the demo fixtures: the run completes, creates no
Payable and leaves the single order pending. -/
theorem C5_cash_witness :
    (handlePayment cashEnv demoCart emptyDB).db.cook_payments = []
    ∧ (handlePayment cashEnv demoCart emptyDB).db.orders.map OrderRow.status
        = ["pending"]
    ∧ (handlePayment cashEnv demoCart emptyDB).db.orders.map OrderRow.payment_status
        = ["pending"]
    ∧ (handlePayment cashEnv demoCart emptyDB).result
        = CheckoutResult.completed "ord-1" := by
  have h := C5_cash_checkout_pending_no_payable cashEnv demoUser "user-1"
    demoItem [] demoCart emptyDB rfl rfl rfl (by decide)
    (by decide) (by decide) (by decide) (by decide) (by decide) rfl
    (by decide) rfl rfl rfl
  rw [h.1]
  refine ⟨rfl, ?_, ?_, rfl⟩ <;> simp [orderDataOf, emptyDB, cashEnv]

/-- C10: for every checkout with payment method online in which the
razorpay SDK is not loaded, `handlePayment` still creates the Order and
its Order Lines, then falls off the end of the handler: no error is
surfaced, no compensating delete runs, the cart is not cleared, and the
Order is left at status pending and payment_status pending with no
Payable created. -/
theorem C10_online_sdk_not_loaded_silent
    (env : CheckoutEnv) (u : UserData) (uid : String)
    (c0 : CartItem) (rest : List CartItem) (cart : List CartItem) (db : DB)
    (henv1 : env.isLoggedIn = true)
    (henv2 : env.userData = some u)
    (henv3 : env.session_user = some uid)
    (hn1 : (u.first_name == "") = false)
    (hn2 : (u.last_name == "") = false)
    (ha1 : (u.address.street == "") = false)
    (ha2 : (u.address.city == "") = false)
    (ha3 : (u.address.state == "") = false)
    (ha4 : (u.address.pincode == "") = false)
    (hcart : cart = c0 :: rest)
    (huuid : ((c0 :: rest).any fun item => !(isValidUUID item.id)) = false)
    (hpm : env.paymentMethod = "online")
    (hload : env.razorpayLoaded = false)
    (hoi : env.orderInsertFails = false)
    (hii : env.orderItemsInsertFails = false) :
    handlePayment env cart db =
      ⟨CheckoutResult.silentReturn env.newOrderId,
       { db with
         orders := db.orders ++ [orderDataOf env uid u (c0 :: rest) c0]
         order_items := db.order_items ++ (c0 :: rest).map (fun item =>
           { order_id := env.newOrderId
             menu_id := item.id.trim
             quantity := item.quantity
             price_at_time := item.price }) },
       false⟩
    ∧ (orderDataOf env uid u (c0 :: rest) c0).status = "pending"
    ∧ (orderDataOf env uid u (c0 :: rest) c0).payment_status = "pending" := by
  subst hcart
  refine ⟨?_, rfl, rfl⟩
  simp [handlePayment, insertOrder, insertOrderItems, orderItemsOf,
      deleteOrder, markOrderPaid, markOrderFailed, insertCookPayment,
      writtenDB, paidUpdateDB, onlineSuccessDB, orderDataOf, henv1, henv2, henv3, hn1, hn2,
    ha1, ha2, ha3, ha4, huuid, hpm, hload, hoi, hii]

/-- Witness for C10: the online run with the SDK unloaded writes the
order and items, creates no Payable, surfaces no error, and keeps the
cart. -/
theorem C10_witness :
    (handlePayment sdkDownEnv demoCart emptyDB).result
        = CheckoutResult.silentReturn "ord-1"
    ∧ (handlePayment sdkDownEnv demoCart emptyDB).db.orders.map OrderRow.status
        = ["pending"]
    ∧ (handlePayment sdkDownEnv demoCart emptyDB).db.order_items.length = 1
    ∧ (handlePayment sdkDownEnv demoCart emptyDB).db.cook_payments = []
    ∧ (handlePayment sdkDownEnv demoCart emptyDB).cartCleared = false := by
  have h := C10_online_sdk_not_loaded_silent sdkDownEnv demoUser "user-1"
    demoItem [] demoCart emptyDB rfl rfl rfl (by decide)
    (by decide) (by decide) (by decide) (by decide) (by decide) rfl
    (by decide) rfl rfl rfl rfl
  rw [h.1]
  refine ⟨rfl, ?_, ?_, rfl, rfl⟩ <;> simp [orderDataOf, emptyDB, demoCart]

/-- C3: for every checkout where the Order insert succeeds but the
Order-Lines batch insert fails, `handlePayment` deletes the just-created
Order before surfacing the failure: assuming the generated order id is
fresh, the database afterwards is exactly the database before, so no
orphaned empty Order remains. -/
theorem C3_items_failure_compensating_delete
    (env : CheckoutEnv) (u : UserData) (uid : String)
    (c0 : CartItem) (rest : List CartItem) (cart : List CartItem) (db : DB)
    (henv1 : env.isLoggedIn = true)
    (henv2 : env.userData = some u)
    (henv3 : env.session_user = some uid)
    (hn1 : (u.first_name == "") = false)
    (hn2 : (u.last_name == "") = false)
    (ha1 : (u.address.street == "") = false)
    (ha2 : (u.address.city == "") = false)
    (ha3 : (u.address.state == "") = false)
    (ha4 : (u.address.pincode == "") = false)
    (hcart : cart = c0 :: rest)
    (huuid : ((c0 :: rest).any fun item => !(isValidUUID item.id)) = false)
    (hoi : env.orderInsertFails = false)
    (hii : env.orderItemsInsertFails = true)
    (hfresh : ∀ o ∈ db.orders, (o.id == env.newOrderId) = false) :
    handlePayment env cart db =
      ⟨CheckoutResult.failed "Failed to add items to order", db, false⟩ := by
  subst hcart
  have h1 : db.orders.filter (fun o => !(o.id == env.newOrderId)) = db.orders :=
    List.filter_eq_self.mpr (fun o ho => by rw [hfresh o ho]; rfl)
  simp [handlePayment, insertOrder, insertOrderItems, orderItemsOf,
      deleteOrder, markOrderPaid, markOrderFailed, insertCookPayment,
      writtenDB, paidUpdateDB, onlineSuccessDB, orderDataOf, henv1, henv2, henv3, hn1, hn2,
    ha1, ha2, ha3, ha4, huuid, hoi, hii, List.filter_append, h1]

/-- Witness for C3 on the demo fixtures with a failing items insert and a
non-empty orders table beforehand: the run fails and the database is
unchanged. -/
theorem C3_witness :
    handlePayment itemsFailEnv demoCart preloadedDB =
      ⟨CheckoutResult.failed "Failed to add items to order",
       preloadedDB, false⟩ :=
  C3_items_failure_compensating_delete itemsFailEnv demoUser "user-1"
    demoItem [] demoCart preloadedDB rfl rfl rfl (by decide)
    (by decide) (by decide) (by decide) (by decide) (by decide) rfl
    (by decide) rfl rfl (by decide)

/-- A cart line priced at 100.01 rupees, exhibiting a total whose exact
value 118.0118 has more than two decimals. -/
def c4Item : CartItem :=
  { demoItem with price := (100.01 : ℚ), quantity := 1 }

/-- The cart for the rounding counterexample. -/
def c4Cart : List CartItem := [c4Item]

/-- C4 as stated is false: for the cart at price 100.01, the stored
total is exactly subtotal times 1.18 = 118.0118, while
round(subtotal times 1.18, 2) = 118.01, and the two differ: the code
never rounds the total to two decimal places. -/
theorem C4_counterexample :
    (handlePayment cashEnv c4Cart emptyDB).db.orders.map OrderRow.total
      = [(1180118 : ℚ) / 10000]
    ∧ getCartTotal c4Cart * (1.18 : ℚ) = (1180118 : ℚ) / 10000
    ∧ round2 ((1180118 : ℚ) / 10000) = (11801 : ℚ) / 100
    ∧ ((1180118 : ℚ) / 10000) ≠ (11801 : ℚ) / 100 := by
  refine ⟨?_, ?_, ?_, by norm_num⟩
  · simp [handlePayment, insertOrder, insertOrderItems, orderItemsOf,
      deleteOrder, markOrderPaid, markOrderFailed, insertCookPayment,
      writtenDB, paidUpdateDB, onlineSuccessDB, cashEnv, demoUser, demoAddress, c4Cart, c4Item,
      demoItem, emptyDB, orderDataOf, getCartTotal, demo_uuid_valid]
    norm_num
  · norm_num [getCartTotal, c4Cart, c4Item, demoItem]
  · norm_num [round2, Int.floor_eq_iff]

/-- C4 amended: the total of the Order is exactly subtotal times 1.18 with no
rounding to two decimals (and no delivery fee): every order row produced
by a run of `handlePayment` that was not already in the database has
total equal to `getCartTotal cart * 1.18`. -/
theorem C4_total_exact_subtotal_times_tax
    (env : CheckoutEnv) (cart : List CartItem) (db : DB)
    (hfresh : ∀ o ∈ db.orders, (o.id == env.newOrderId) = false) :
    ∀ o ∈ (handlePayment env cart db).db.orders,
      o ∈ db.orders ∨ o.total = getCartTotal cart * (1.18 : ℚ) := by
  intro o ho
  unfold handlePayment at ho
  split at ho
  · exact Or.inl ho
  · split at ho
    · exact Or.inl ho
    · split at ho
      · exact Or.inl ho
      · split at ho
        · exact Or.inl ho
        · split at ho
          · exact Or.inl ho
          · split at ho
            · exact Or.inl ho
            · split at ho
              · exact Or.inl ho
              · split at ho
                · exact Or.inl ho
                · split at ho
                  · rcases mem_insertOrder _ _ _ (mem_deleteOrder _ _ _ ho)
                      with h | h
                    · exact Or.inl h
                    · exact Or.inr (by rw [h]; rfl)
                  · split at ho
                    · rcases mem_writtenDB _ _ _ _ _ _ _ ho
                        with h | h
                      · exact Or.inl h
                      · exact Or.inr (by rw [h]; rfl)
                    · split at ho
                      · split at ho
                        · rcases mem_onlineSuccessDB _ _ _ _ _ _ ho
                            with ⟨p, hp, htot, hid⟩
                          rcases mem_writtenDB _ _ _ _ _ _ _ hp
                            with h | h
                          · rw [hid (hfresh p h)]
                            exact Or.inl h
                          · exact Or.inr (by rw [htot, h]; rfl)
                        · rcases mem_markOrderFailed_total _ _ _ _ ho
                            with ⟨p, hp, htot, hid⟩
                          rcases mem_writtenDB _ _ _ _ _ _ _ hp
                            with h | h
                          · rw [hid (hfresh p h)]
                            exact Or.inl h
                          · exact Or.inr (by rw [htot, h]; rfl)
                      · rcases mem_writtenDB _ _ _ _ _ _ _ ho
                          with h | h
                        · exact Or.inl h
                        · exact Or.inr (by rw [h]; rfl)


/-- Witness for C4: the order row written by the demo cash run is not a
pre-existing row, and its total is exactly subtotal times 1.18. -/
theorem C4_witness :
    (orderDataOf cashEnv "user-1" demoUser demoCart demoItem) ∈ emptyDB.orders
    ∨ (orderDataOf cashEnv "user-1" demoUser demoCart demoItem).total
        = getCartTotal demoCart * (1.18 : ℚ) :=
  C4_total_exact_subtotal_times_tax cashEnv demoCart emptyDB
    (by intro o ho; simp [emptyDB] at ho)
    (orderDataOf cashEnv "user-1" demoUser demoCart demoItem)
    (by simp [handlePayment, insertOrder, insertOrderItems, orderItemsOf,
      deleteOrder, markOrderPaid, markOrderFailed, insertCookPayment,
      writtenDB, paidUpdateDB, onlineSuccessDB, cashEnv, demoUser, demoAddress, demoCart,
      demoItem, emptyDB, orderDataOf, demo_uuid_valid])

/-- The demo user with an empty phone number but an otherwise complete
profile. -/
def noPhoneUser : UserData := { demoUser with phone := "" }

/-- The cash checkout environment for the empty-phone user. -/
def noPhoneEnv : CheckoutEnv := { cashEnv with userData := some noPhoneUser }

/-- C8 as stated is false: with an empty phone (all other profile fields
complete), `handlePayment` raises no IncompleteProfile failure and an
Order row is written. -/
theorem C8_counterexample :
    noPhoneUser.phone = ""
    ∧ (handlePayment noPhoneEnv demoCart emptyDB).result
        = CheckoutResult.completed "ord-1"
    ∧ (handlePayment noPhoneEnv demoCart emptyDB).db.orders.length = 1 := by
  refine ⟨rfl, ?_, ?_⟩ <;>
    simp [handlePayment, insertOrder, insertOrderItems, orderItemsOf,
      deleteOrder, markOrderPaid, markOrderFailed, insertCookPayment,
      writtenDB, paidUpdateDB, onlineSuccessDB, noPhoneEnv, cashEnv, noPhoneUser, demoUser,
      demoAddress, demoCart, demoItem, emptyDB, orderDataOf, demo_uuid_valid]

/-- C8 amended: `handlePayment` fails before writing anything whenever
first_name, last_name, or any address component is empty; an empty phone
is not checked there and only the UI guard `hasCompleteProfile` (which
disables the checkout button) rejects it. -/
theorem C8_incomplete_profile_checks
    (env : CheckoutEnv) (u : UserData) (uid : String)
    (cart : List CartItem) (db : DB)
    (henv1 : env.isLoggedIn = true)
    (henv2 : env.userData = some u)
    (henv3 : env.session_user = some uid) :
    ((u.first_name == "" || u.last_name == "" || u.address.street == ""
        || u.address.city == "" || u.address.state == ""
        || u.address.pincode == "") = true →
      (handlePayment env cart db).db = db
      ∧ ∃ m, (handlePayment env cart db).result = CheckoutResult.failed m)
    ∧ ((u.phone == "") = true → hasCompleteProfile (some u) = false) := by
  constructor
  · intro hempty
    by_cases h1 : (u.first_name == "" || u.last_name == "") = true
    · constructor
      · simp [handlePayment, insertOrder, insertOrderItems, orderItemsOf,
      deleteOrder, markOrderPaid, markOrderFailed, insertCookPayment,
      writtenDB, paidUpdateDB, onlineSuccessDB, henv1, henv2, henv3, h1]
      · exact ⟨"Please complete your profile with your name before checkout",
          by simp [handlePayment, insertOrder, insertOrderItems, orderItemsOf,
      deleteOrder, markOrderPaid, markOrderFailed, insertCookPayment,
      writtenDB, paidUpdateDB, onlineSuccessDB, henv1, henv2, henv3, h1]⟩
    · have h2 : (u.address.street == "" || u.address.city == ""
          || u.address.state == "" || u.address.pincode == "") = true := by
        revert hempty h1
        cases u.first_name == "" <;> cases u.last_name == "" <;> simp
      constructor
      · simp [handlePayment, insertOrder, insertOrderItems, orderItemsOf,
      deleteOrder, markOrderPaid, markOrderFailed, insertCookPayment,
      writtenDB, paidUpdateDB, onlineSuccessDB, henv1, henv2, henv3, h1, h2]
      · exact ⟨"Please add a complete delivery address to your profile",
          by simp [handlePayment, insertOrder, insertOrderItems, orderItemsOf,
      deleteOrder, markOrderPaid, markOrderFailed, insertCookPayment,
      writtenDB, paidUpdateDB, onlineSuccessDB, henv1, henv2, henv3, h1, h2]⟩
  · intro hp
    simp [hasCompleteProfile, hp]

/-- The demo user with an empty first name. -/
def noNameUser : UserData := { demoUser with first_name := "" }

/-- The cash checkout environment for the empty-first-name user. -/
def noNameEnv : CheckoutEnv := { cashEnv with userData := some noNameUser }

/-- Witness for C8 amended: an empty first name makes the run fail with
nothing written, and the empty-phone profile fails the UI guard. -/
theorem C8_witness :
    ((handlePayment noNameEnv demoCart emptyDB).db = emptyDB
      ∧ ∃ m, (handlePayment noNameEnv demoCart emptyDB).result
          = CheckoutResult.failed m)
    ∧ hasCompleteProfile (some noPhoneUser) = false :=
  ⟨(C8_incomplete_profile_checks noNameEnv noNameUser "user-1" demoCart emptyDB
      rfl rfl rfl).1 (by decide),
   (C8_incomplete_profile_checks noPhoneEnv noPhoneUser "user-1" demoCart emptyDB
      rfl rfl rfl).2 (by decide)⟩





/-! ## Fixtures and claims for the verification endpoint -/

/-- A concrete, non-cryptographic stand-in for the abstract HMAC-SHA256
primitive, used only to instantiate witnesses and counterexamples. -/
def demoHmac (key msg : String) : String := key ++ ":" ++ msg

/-- Verify-endpoint environment with every database statement
succeeding. -/
def vEnv : VerifyEnv :=
  { secret := "topsecret"
    hmacSHA256 := demoHmac
    now := 2000
    orderUpdateFails := false
    orderFetchFails := false
    cookPaymentInsertFails := false }

/-- A request whose signature is exactly the digest the server
recomputes for session sess_1 and payment pay_1, naming the database
order ord-1. -/
def vReq : VerifyRequest :=
  { razorpay_payment_id := some "pay_1"
    razorpay_order_id := some "sess_1"
    razorpay_signature := some "topsecret:sess_1|pay_1"
    order_db_id := some "ord-1" }

/-- The same request with a forged signature. -/
def badSigReq : VerifyRequest :=
  { vReq with razorpay_signature := some "forged" }

/-- The same request with the signature field missing. -/
def missingReq : VerifyRequest :=
  { vReq with razorpay_signature := none }

/-- The pending order ord-1 before any verification. -/
def pendingOrder : OrderRow :=
  { id := "ord-1"
    user_id := "user-1"
    cook_id := "cook-1"
    status := "pending"
    total := 236
    payment_method := "online"
    payment_status := "pending"
    payment_id := none
    delivery_address := demoAddress
    created_at := 900
    updated_at := none }

/-- A database holding only the pending order ord-1. -/
def pendingOrderDB : DB :=
  { orders := [pendingOrder]
    order_items := []
    cook_payments := [] }

/-- The verify-endpoint environment with every database statement
failing. -/
def vFailEnv : VerifyEnv :=
  { vEnv with
    orderUpdateFails := true
    orderFetchFails := true
    cookPaymentInsertFails := true }

/-- C1: the endpoint has no idempotency guard: calling it twice with the
same valid payload (database statements succeeding) inserts a second
`cook_payments` row for the same order, leaving two Payables, not one. -/
theorem C1_double_verification_duplicates_payable :
    ((verifyPaymentPOST vEnv vReq
        (verifyPaymentPOST vEnv vReq pendingOrderDB).2).2.cook_payments.map
      CookPaymentRow.order_id) = ["ord-1", "ord-1"] := by
  simp [verifyPaymentPOST, verifyUpdateOrders, vEnv, vReq, demoHmac, truthy,
    pendingOrderDB, pendingOrder, demoAddress]

/-- C6: the verify endpoint returns 400 when any of the three gateway
fields is missing (or empty: JS falsiness), returns 400 when the
supplied signature differs from HMAC-SHA256(secret, session|payment),
and returns the 200 success body carrying the payment and session ids
exactly when the signature matches. -/
theorem C6_verify_response_codes
    (env : VerifyEnv) (req : VerifyRequest) (db : DB) :
    (truthy req.razorpay_payment_id = false
        ∨ truthy req.razorpay_order_id = false
        ∨ truthy req.razorpay_signature = false →
      (verifyPaymentPOST env req db).1
        = ApiResponse.err 400 "Payment verification failed: Missing parameters")
    ∧ (truthy req.razorpay_payment_id = true →
       truthy req.razorpay_order_id = true →
       truthy req.razorpay_signature = true →
        ((verifyPaymentPOST env req db).1
            = ApiResponse.ok (req.razorpay_payment_id.getD "")
                (req.razorpay_order_id.getD "")
          ↔ env.hmacSHA256 env.secret
              (req.razorpay_order_id.getD "" ++ "|" ++ req.razorpay_payment_id.getD "")
            = req.razorpay_signature.getD "")
        ∧ (env.hmacSHA256 env.secret
              (req.razorpay_order_id.getD "" ++ "|" ++ req.razorpay_payment_id.getD "")
            ≠ req.razorpay_signature.getD "" →
          (verifyPaymentPOST env req db).1
            = ApiResponse.err 400 "Payment verification failed: Invalid signature")) := by
  constructor
  · intro h
    rcases h with h | h | h <;> simp [verifyPaymentPOST, h]
  · intro h1 h2 h3
    have herr : env.hmacSHA256 env.secret
          (req.razorpay_order_id.getD "" ++ "|" ++ req.razorpay_payment_id.getD "")
          ≠ req.razorpay_signature.getD "" →
        (verifyPaymentPOST env req db).1
          = ApiResponse.err 400 "Payment verification failed: Invalid signature" := by
      intro hne
      have hb : (env.hmacSHA256 env.secret
            (req.razorpay_order_id.getD "" ++ "|" ++ req.razorpay_payment_id.getD "")
          == req.razorpay_signature.getD "") = false :=
        beq_eq_false_iff_ne.mpr hne
      simp [verifyPaymentPOST, h1, h2, h3, hb]
    refine ⟨⟨fun hok => ?_, fun hsig => ?_⟩, herr⟩
    · by_cases hsig : env.hmacSHA256 env.secret
          (req.razorpay_order_id.getD "" ++ "|" ++ req.razorpay_payment_id.getD "")
          = req.razorpay_signature.getD ""
      · exact hsig
      · rw [herr hsig] at hok
        exact absurd hok (by simp)
    · cases htr : truthy req.order_db_id <;>
        simp [verifyPaymentPOST, h1, h2, h3, hsig, htr]

/-- Witness for C6 at concrete requests: the valid signature yields the
200 body, the forged signature yields 400 invalid signature, and the
missing signature yields 400 missing parameters. -/
theorem C6_witness :
    (verifyPaymentPOST vEnv vReq emptyDB).1 = ApiResponse.ok "pay_1" "sess_1"
    ∧ (verifyPaymentPOST vEnv badSigReq emptyDB).1
        = ApiResponse.err 400 "Payment verification failed: Invalid signature"
    ∧ (verifyPaymentPOST vEnv missingReq emptyDB).1
        = ApiResponse.err 400 "Payment verification failed: Missing parameters" :=
  ⟨((C6_verify_response_codes vEnv vReq emptyDB).2 (by decide) (by decide)
      (by decide)).1.mpr (by decide),
   ((C6_verify_response_codes vEnv badSigReq emptyDB).2 (by decide) (by decide)
      (by decide)).2 (by decide),
   (C6_verify_response_codes vEnv missingReq emptyDB).1 (Or.inr (Or.inr rfl))⟩

/-- C7 as stated is false: after a successful verification of the
pending order ord-1 with every database statement succeeding, the order
has status paid, but its payment_status is still pending, not paid: the
update run by the endpoint never writes payment_status. -/
theorem C7_counterexample :
    (verifyPaymentPOST vEnv vReq pendingOrderDB).2.orders.map
        OrderRow.payment_status = ["pending"]
    ∧ (verifyPaymentPOST vEnv vReq pendingOrderDB).2.orders.map
        OrderRow.status = ["paid"]
    ∧ ("pending" : String) ≠ "paid" := by
  refine ⟨?_, ?_, by decide⟩ <;>
    simp [verifyPaymentPOST, verifyUpdateOrders, vEnv, vReq, demoHmac, truthy,
      pendingOrderDB, pendingOrder, demoAddress]

/-- C7 amended: on a verified payment success naming the one existing
order, with no database failure, the endpoint updates the order to
status paid with payment_id the gateway payment id and updated_at now,
leaves payment_status unchanged, and appends exactly one Payable
with the cook of the order, the order id, amount = total and status pending. -/
theorem C7_verified_success_updates_order_and_payable
    (env : VerifyEnv) (req : VerifyRequest) (db : DB) (o0 : OrderRow)
    (dbid : String)
    (h1 : truthy req.razorpay_payment_id = true)
    (h2 : truthy req.razorpay_order_id = true)
    (h3 : truthy req.razorpay_signature = true)
    (hsig : env.hmacSHA256 env.secret
        (req.razorpay_order_id.getD "" ++ "|" ++ req.razorpay_payment_id.getD "")
      = req.razorpay_signature.getD "")
    (hdb : req.order_db_id = some dbid)
    (hdbid : (dbid == "") = false)
    (horders : db.orders = [o0])
    (hid : (o0.id == dbid) = true)
    (hu : env.orderUpdateFails = false)
    (hf : env.orderFetchFails = false)
    (hc : env.cookPaymentInsertFails = false) :
    (verifyPaymentPOST env req db).2.orders
      = [{ o0 with
           status := "paid"
           payment_id := some (req.razorpay_payment_id.getD "")
           updated_at := some env.now }]
    ∧ (verifyPaymentPOST env req db).2.cook_payments
      = db.cook_payments ++
        [{ cook_id := o0.cook_id
           order_id := dbid
           amount := o0.total
           status := "pending"
           created_at := none }]
    ∧ (verifyPaymentPOST env req db).1
      = ApiResponse.ok (req.razorpay_payment_id.getD "")
          (req.razorpay_order_id.getD "") := by
  have hideq : o0.id = dbid := by simpa using hid
  refine ⟨?_, ?_, ?_⟩ <;>
    simp [verifyPaymentPOST, verifyUpdateOrders, h1, h2, h3, hsig,
      hdb, truthy_some, hdbid, horders, hideq, hu, hf, hc]

/-- Witness for C7 amended on the pending order ord-1. -/
theorem C7_witness :
    (verifyPaymentPOST vEnv vReq pendingOrderDB).2.orders
      = [{ pendingOrder with
           status := "paid"
           payment_id := some "pay_1"
           updated_at := some 2000 }]
    ∧ (verifyPaymentPOST vEnv vReq pendingOrderDB).2.cook_payments
      = [{ cook_id := "cook-1"
           order_id := "ord-1"
           amount := 236
           status := "pending"
           created_at := none }] := by
  have h := C7_verified_success_updates_order_and_payable vEnv vReq
    pendingOrderDB pendingOrder "ord-1" (by decide) (by decide) (by decide)
    (by decide) rfl (by decide) rfl (by decide) rfl rfl rfl
  exact ⟨h.1, h.2.1⟩

/-- C9: once the signature is valid, the verify endpoint returns the 200
success response no matter which database statements fail; with the
order update and the order fetch both failing, the database is left
completely unchanged, so a 200 response does not imply the order was
marked paid or that a Payable exists. -/
theorem C9_success_response_despite_db_failures
    (env : VerifyEnv) (req : VerifyRequest) (db : DB)
    (h1 : truthy req.razorpay_payment_id = true)
    (h2 : truthy req.razorpay_order_id = true)
    (h3 : truthy req.razorpay_signature = true)
    (hsig : env.hmacSHA256 env.secret
        (req.razorpay_order_id.getD "" ++ "|" ++ req.razorpay_payment_id.getD "")
      = req.razorpay_signature.getD "") :
    (verifyPaymentPOST env req db).1
      = ApiResponse.ok (req.razorpay_payment_id.getD "")
          (req.razorpay_order_id.getD "")
    ∧ (env.orderUpdateFails = true → env.orderFetchFails = true →
        (verifyPaymentPOST env req db).2 = db) := by
  constructor
  · cases htr : truthy req.order_db_id <;>
      simp [verifyPaymentPOST, h1, h2, h3, hsig, htr]
  · intro hu hf
    cases htr : truthy req.order_db_id <;>
      simp [verifyPaymentPOST, h1, h2, h3, hsig, htr, hu, hf]

/-- Witness for C9: with every database statement failing, the valid
request still gets the 200 body and the database is untouched. -/
theorem C9_witness :
    (verifyPaymentPOST vFailEnv vReq pendingOrderDB).1
      = ApiResponse.ok "pay_1" "sess_1"
    ∧ (verifyPaymentPOST vFailEnv vReq pendingOrderDB).2 = pendingOrderDB := by
  have h := C9_success_response_despite_db_failures vFailEnv vReq pendingOrderDB
    (by decide) (by decide) (by decide) (by decide)
  exact ⟨h.1, h.2 rfl rfl⟩

/-- The online checkout environment whose widget callback resolves with
a payment id that no gateway issued; no signature accompanies it and
none is ever checked. -/
def forgedEnv : CheckoutEnv :=
  { cashEnv with
    paymentMethod := "online"
    outcome := PaymentOutcome.resolved "pay_forged" }

/-- C2: the checkout flow marks the order paid purely because the widget
promise resolved: `handlePayment` receives no signature and recomputes
no HMAC, so an online checkout whose callback would fail verification
still ends at status paid and payment_status paid (never
payment_failed), with the unverified payment id recorded. -/
theorem C2_paid_without_server_verification :
    (handlePayment forgedEnv demoCart emptyDB).db.orders.map OrderRow.status
      = ["paid"]
    ∧ (handlePayment forgedEnv demoCart emptyDB).db.orders.map
        OrderRow.payment_status = ["paid"]
    ∧ (handlePayment forgedEnv demoCart emptyDB).db.orders.map
        OrderRow.payment_id = [some "pay_forged"]
    ∧ (handlePayment forgedEnv demoCart emptyDB).result
      = CheckoutResult.completed "ord-1" := by
  refine ⟨?_, ?_, ?_, ?_⟩ <;>
    simp [handlePayment, insertOrder, insertOrderItems, orderItemsOf,
      deleteOrder, markOrderPaid, markOrderFailed, insertCookPayment,
      writtenDB, paidUpdateDB, onlineSuccessDB, forgedEnv, cashEnv, demoUser,
      demoAddress, demoCart, demoItem, emptyDB, orderDataOf, demo_uuid_valid]

end CampusDabba
